import Mathlib

/-!
VulkanTriangle: physical device selection.

A shallow embedding of `findQueueFamilyIndices` and `pickPhysicalDevice` from
`src/VulkanTriangle/VulkanTriangle.cpp`, and theorems about them.

The Vulkan loader and driver are external to the program.  What the two
functions read from them (three header constants and two per-device queries) is
collected in the structure `Vulkan` and taken as a parameter, so every theorem
holds for every value of the constants and every answer of the driver.
-/

namespace VulkanTriangle

/-- Number of values of a `uint32_t`. -/
def UINT32_SIZE : Nat := 4294967296

/-- A `VkPhysicalDevice` handle.  Only equality of handles is used. -/
abbrev VkPhysicalDevice := Nat

/-- The part of `VkQueueFamilyProperties` the program reads: the capability bitmask. -/
structure VkQueueFamilyProperties where
  queueFlags : Nat
  deriving DecidableEq, Repr

/-- The struct `QueueFamilyIndices` (lines 22-28): an optional `uint32_t`. -/
structure QueueFamilyIndices where
  graphicsFamily : Option Nat
  deriving DecidableEq, Repr

/-- The method `isComplete` (lines 25-27): `graphicsFamily.has_value()`. -/
def QueueFamilyIndices.isComplete (self : QueueFamilyIndices) : Bool :=
  self.graphicsFamily.isSome

/-- What the program reads from the Vulkan headers and the driver.
`deviceType d` is the `deviceType` field that `vkGetPhysicalDeviceProperties`
fills for `d`; `queueFamilies d` is the array that
`vkGetPhysicalDeviceQueueFamilyProperties` fills for `d`. -/
structure Vulkan where
  VK_NULL_HANDLE : VkPhysicalDevice
  VK_QUEUE_GRAPHICS_BIT : Nat
  VK_PHYSICAL_DEVICE_TYPE_DISCRETE_GPU : Nat
  deviceType : VkPhysicalDevice → Nat
  queueFamilies : VkPhysicalDevice → List VkQueueFamilyProperties

/-- The test of line 111, `queueFamily.queueFlags & VK_QUEUE_GRAPHICS_BIT`,
as a proposition: the family's flags include the graphics bit. -/
def hasGraphicsBit (vk : Vulkan) (queueFamily : VkQueueFamilyProperties) : Prop :=
  queueFamily.queueFlags &&& vk.VK_QUEUE_GRAPHICS_BIT ≠ 0

instance (vk : Vulkan) (queueFamily : VkQueueFamilyProperties) :
    Decidable (hasGraphicsBit vk queueFamily) := by
  unfold hasGraphicsBit; infer_instance

/-- The range-for loop of lines 108-113, with the counter `index` (a
`uint32_t`, so `index++` wraps) and the result `indices` carried along. -/
def findQueueFamilyIndicesLoop (graphicsBit : Nat) :
    List VkQueueFamilyProperties → Nat → QueueFamilyIndices → QueueFamilyIndices
  | [], _, indices => indices
  | queueFamily :: rest, index, indices =>
    if indices.isComplete then indices
    else
      let indices :=
        if queueFamily.queueFlags &&& graphicsBit ≠ 0 then
          { indices with graphicsFamily := some index }
        else indices
      findQueueFamilyIndicesLoop graphicsBit rest ((index + 1) % UINT32_SIZE) indices

/-- The method `findQueueFamilyIndices` (lines 99-116). -/
def findQueueFamilyIndices (vk : Vulkan) (device : VkPhysicalDevice) : QueueFamilyIndices :=
  findQueueFamilyIndicesLoop vk.VK_QUEUE_GRAPHICS_BIT (vk.queueFamilies device) 0
    { graphicsFamily := none }

/-- The two members of `VulkanApplication` that `pickPhysicalDevice` writes
(lines 60-61). -/
structure VulkanApplication where
  physicalDevice : VkPhysicalDevice
  queueFamilyIndices : QueueFamilyIndices
  deriving DecidableEq, Repr

/-- The score computed for one device in the loop body (lines 208-212). -/
def deviceScore (vk : Vulkan) (device : VkPhysicalDevice) : Nat :=
  let deviceQueueFamilyIndices := findQueueFamilyIndices vk device
  let deviceScore := 0
  let deviceScore :=
    if vk.deviceType device = vk.VK_PHYSICAL_DEVICE_TYPE_DISCRETE_GPU then
      (deviceScore + 100) % UINT32_SIZE
    else deviceScore
  if !deviceQueueFamilyIndices.isComplete then 0 else deviceScore

/-- What the loop of lines 201-219 carries from one device to the next: the
application object and the local `currentBestScore`. -/
structure ScanState where
  app : VulkanApplication
  currentBestScore : Nat
  deriving DecidableEq, Repr

/-- One iteration of the loop of lines 201-219. -/
def scanStep (vk : Vulkan) (st : ScanState) (device : VkPhysicalDevice) : ScanState :=
  let deviceQueueFamilyIndices := findQueueFamilyIndices vk device
  let score := deviceScore vk device
  if score > st.currentBestScore then
    { app := { physicalDevice := device, queueFamilyIndices := deviceQueueFamilyIndices },
      currentBestScore := score }
  else st

/-- Lines 199-219: reset `physicalDevice`, start from score 0, scan the devices in
enumeration order. -/
def scanDevices (vk : Vulkan) (devices : List VkPhysicalDevice) (app : VulkanApplication) :
    ScanState :=
  devices.foldl (scanStep vk)
    { app := { app with physicalDevice := vk.VK_NULL_HANDLE }, currentBestScore := 0 }

/-- The method `pickPhysicalDevice` (lines 191-224).  `devices` is the array
filled by `vkEnumeratePhysicalDevices`, `app` the object before the call.  The
result is the exception thrown (the message of the `std::runtime_error`) or
normal return, together with the object as the call leaves it. -/
def pickPhysicalDevice (vk : Vulkan) (devices : List VkPhysicalDevice)
    (app : VulkanApplication) : Except String Unit × VulkanApplication :=
  if devices.length = 0 then (Except.error "No GPUs with Vulkan support", app)
  else
    let st := scanDevices vk devices app
    if st.currentBestScore = 0 ∨ st.app.physicalDevice = vk.VK_NULL_HANDLE then
      (Except.error "Failed to find suitable GPU", st.app)
    else (Except.ok (), st.app)

deriving instance DecidableEq for Except

/-- What a caller observes of a run: the exception message, or on normal return
the selected device and its queue family indices. -/
def outcome (r : Except String Unit × VulkanApplication) :
    Except String (VkPhysicalDevice × QueueFamilyIndices) :=
  match r.1 with
  | Except.ok _ => Except.ok (r.2.physicalDevice, r.2.queueFamilyIndices)
  | Except.error e => Except.error e

/-- Some queue family of the device has the graphics bit. -/
def hasGraphicsFamily (vk : Vulkan) (device : VkPhysicalDevice) : Prop :=
  ∃ queueFamily ∈ vk.queueFamilies device, hasGraphicsBit vk queueFamily

instance (vk : Vulkan) (device : VkPhysicalDevice) : Decidable (hasGraphicsFamily vk device) := by
  unfold hasGraphicsFamily; infer_instance

/-- The device is a discrete GPU with a graphics-capable queue family. -/
def isDiscreteWithGraphics (vk : Vulkan) (device : VkPhysicalDevice) : Prop :=
  vk.deviceType device = vk.VK_PHYSICAL_DEVICE_TYPE_DISCRETE_GPU ∧ hasGraphicsFamily vk device

instance (vk : Vulkan) (device : VkPhysicalDevice) :
    Decidable (isDiscreteWithGraphics vk device) := by
  unfold isDiscreteWithGraphics; infer_instance

/-- A concrete platform used in the examples: header values of the Vulkan
headers (null handle 0, graphics bit 1, discrete GPU 2), device 1 a discrete GPU
with families compute, transfer, graphics+compute; device 2 an integrated GPU
with one graphics family; device 3 a discrete GPU with only a compute family;
device 4 a discrete GPU with two graphics families; any other handle an
integrated GPU without families. -/
def exampleVulkan : Vulkan where
  VK_NULL_HANDLE := 0
  VK_QUEUE_GRAPHICS_BIT := 1
  VK_PHYSICAL_DEVICE_TYPE_DISCRETE_GPU := 2
  deviceType := fun d => if d = 1 ∨ d = 3 ∨ d = 4 then 2 else 1
  queueFamilies := fun d =>
    if d = 1 then [⟨2⟩, ⟨4⟩, ⟨3⟩]
    else if d = 2 then [⟨1⟩]
    else if d = 3 then [⟨2⟩]
    else if d = 4 then [⟨4⟩, ⟨7⟩, ⟨1⟩]
    else []

/-! ## The queue family finder -/

theorem findQueueFamilyIndicesLoop_of_isComplete (graphicsBit : Nat)
    (queueFamilies : List VkQueueFamilyProperties) (index : Nat) (indices : QueueFamilyIndices)
    (h : indices.isComplete = true) :
    findQueueFamilyIndicesLoop graphicsBit queueFamilies index indices = indices := by
  cases queueFamilies <;> simp [findQueueFamilyIndicesLoop, h]

theorem findQueueFamilyIndicesLoop_eq_none_iff (graphicsBit : Nat)
    (queueFamilies : List VkQueueFamilyProperties) (index : Nat) :
    (findQueueFamilyIndicesLoop graphicsBit queueFamilies index ⟨none⟩).graphicsFamily = none ↔
      ∀ qf ∈ queueFamilies, qf.queueFlags &&& graphicsBit = 0 := by
  induction queueFamilies generalizing index with
  | nil => simp [findQueueFamilyIndicesLoop]
  | cons qf rest ih =>
    by_cases hg : qf.queueFlags &&& graphicsBit = 0
    · simp [findQueueFamilyIndicesLoop, QueueFamilyIndices.isComplete, hg, ih]
    · have hc : (QueueFamilyIndices.mk (some index)).isComplete = true := rfl
      simp [findQueueFamilyIndicesLoop, QueueFamilyIndices.isComplete, hg,
        findQueueFamilyIndicesLoop_of_isComplete _ _ _ _ hc]

theorem findQueueFamilyIndicesLoop_eq_some_iff (graphicsBit : Nat)
    (queueFamilies : List VkQueueFamilyProperties) (index : Nat) (hindex : index < UINT32_SIZE)
    (k : Nat) :
    (findQueueFamilyIndicesLoop graphicsBit queueFamilies index ⟨none⟩).graphicsFamily = some k ↔
      ∃ i, k = (index + i) % UINT32_SIZE ∧
        (∃ qf, queueFamilies[i]? = some qf ∧ qf.queueFlags &&& graphicsBit ≠ 0) ∧
        ∀ j, j < i → ∀ qf, queueFamilies[j]? = some qf → qf.queueFlags &&& graphicsBit = 0 := by
  induction queueFamilies generalizing index with
  | nil => simp [findQueueFamilyIndicesLoop]
  | cons qf rest ih =>
    by_cases hg : qf.queueFlags &&& graphicsBit = 0
    · have hlt : (index + 1) % UINT32_SIZE < UINT32_SIZE := Nat.mod_lt _ (by decide)
      have hstep : findQueueFamilyIndicesLoop graphicsBit (qf :: rest) index ⟨none⟩ =
          findQueueFamilyIndicesLoop graphicsBit rest ((index + 1) % UINT32_SIZE) ⟨none⟩ := by
        simp [findQueueFamilyIndicesLoop, QueueFamilyIndices.isComplete, hg]
      rw [hstep, ih _ hlt]
      constructor
      · rintro ⟨i, hk, ⟨q, hq, hqg⟩, hbefore⟩
        refine ⟨i + 1, ?_, ⟨q, by simpa using hq, hqg⟩, ?_⟩
        · rw [hk]; unfold UINT32_SIZE; omega
        · intro j hj q' hq'
          cases j with
          | zero =>
            have : qf = q' := by simpa using hq'
            exact this ▸ hg
          | succ j => exact hbefore j (by omega) q' (by simpa using hq')
      · rintro ⟨i, hk, ⟨q, hq, hqg⟩, hbefore⟩
        cases i with
        | zero =>
          have : qf = q := by simpa using hq
          exact absurd (this ▸ hg) hqg
        | succ i =>
          refine ⟨i, ?_, ⟨q, by simpa using hq, hqg⟩, ?_⟩
          · rw [hk]; unfold UINT32_SIZE; omega
          · intro j hj q' hq'
            exact hbefore (j + 1) (by omega) q' (by simpa using hq')
    · have hc : (QueueFamilyIndices.mk (some index)).isComplete = true := rfl
      have hstep : findQueueFamilyIndicesLoop graphicsBit (qf :: rest) index ⟨none⟩ =
          ⟨some index⟩ := by
        simp [findQueueFamilyIndicesLoop, QueueFamilyIndices.isComplete, hg,
          findQueueFamilyIndicesLoop_of_isComplete _ _ _ _ hc]
      rw [hstep]
      constructor
      · intro hk
        refine ⟨0, ?_, ⟨qf, by simp, hg⟩, ?_⟩
        · have : index = k := by simpa using hk
          rw [← this, Nat.add_zero, Nat.mod_eq_of_lt hindex]
        · intro j hj; omega
      · rintro ⟨i, hk, -, hbefore⟩
        cases i with
        | zero =>
          rw [Nat.add_zero, Nat.mod_eq_of_lt hindex] at hk
          simp [hk]
        | succ i => exact absurd (hbefore 0 (by omega) qf (by simp)) hg

theorem findQueueFamilyIndices_isComplete_iff (vk : Vulkan) (device : VkPhysicalDevice) :
    (findQueueFamilyIndices vk device).isComplete = true ↔ hasGraphicsFamily vk device := by
  have h := findQueueFamilyIndicesLoop_eq_none_iff vk.VK_QUEUE_GRAPHICS_BIT
    (vk.queueFamilies device) 0
  unfold hasGraphicsFamily hasGraphicsBit QueueFamilyIndices.isComplete findQueueFamilyIndices
  rw [Option.isSome_iff_ne_none, Ne, h]
  push_neg
  rfl

theorem findQueueFamilyIndices_eq_some_iff (vk : Vulkan) (device : VkPhysicalDevice)
    (hcount : (vk.queueFamilies device).length < UINT32_SIZE) (i : Nat) :
    (findQueueFamilyIndices vk device).graphicsFamily = some i ↔
      (∃ qf, (vk.queueFamilies device)[i]? = some qf ∧ hasGraphicsBit vk qf) ∧
        ∀ j, j < i → ∀ qf, (vk.queueFamilies device)[j]? = some qf → ¬ hasGraphicsBit vk qf := by
  have h := findQueueFamilyIndicesLoop_eq_some_iff vk.VK_QUEUE_GRAPHICS_BIT
    (vk.queueFamilies device) 0 (by decide) i
  unfold findQueueFamilyIndices hasGraphicsBit
  rw [h]
  constructor
  · rintro ⟨k, hi, ⟨qf, hqf, hg⟩, hbefore⟩
    have hk : k < (vk.queueFamilies device).length := by
      by_contra hge
      rw [List.getElem?_eq_none (by omega)] at hqf
      exact Option.noConfusion hqf
    have hik : i = k := by
      rw [hi, Nat.zero_add]; exact Nat.mod_eq_of_lt (by omega)
    subst hik
    exact ⟨⟨qf, hqf, hg⟩, fun j hj q hq => not_not.mpr (hbefore j hj q hq)⟩
  · rintro ⟨⟨qf, hqf, hg⟩, hbefore⟩
    have hk : i < (vk.queueFamilies device).length := by
      by_contra hge
      rw [List.getElem?_eq_none (by omega)] at hqf
      exact Option.noConfusion hqf
    refine ⟨i, ?_, ⟨qf, hqf, hg⟩, fun j hj q hq => not_not.mp (hbefore j hj q hq)⟩
    rw [Nat.zero_add]; exact (Nat.mod_eq_of_lt (by omega)).symm

theorem findQueueFamilyIndices_eq_none_iff (vk : Vulkan) (device : VkPhysicalDevice) :
    (findQueueFamilyIndices vk device).graphicsFamily = none ↔
      ∀ qf ∈ vk.queueFamilies device, ¬ hasGraphicsBit vk qf := by
  have h := findQueueFamilyIndicesLoop_eq_none_iff vk.VK_QUEUE_GRAPHICS_BIT
    (vk.queueFamilies device) 0
  unfold findQueueFamilyIndices hasGraphicsBit
  rw [h]
  exact ⟨fun hall qf hqf => not_not.mpr (hall qf hqf), fun hall qf hqf => not_not.mp (hall qf hqf)⟩

/-! ## The device score -/

theorem deviceScore_eq (vk : Vulkan) (device : VkPhysicalDevice) :
    deviceScore vk device = if isDiscreteWithGraphics vk device then 100 else 0 := by
  have hiff := findQueueFamilyIndices_isComplete_iff vk device
  by_cases hc : (findQueueFamilyIndices vk device).isComplete = true <;>
    by_cases hd : vk.deviceType device = vk.VK_PHYSICAL_DEVICE_TYPE_DISCRETE_GPU
  · rw [if_pos ⟨hd, hiff.mp hc⟩]
    simp [deviceScore, UINT32_SIZE, hc, hd]
  · rw [if_neg (fun h => hd h.1)]
    simp [deviceScore, hc, hd]
  · rw [if_neg (fun h => hc (hiff.mpr h.2))]
    simp [deviceScore, hc]
  · rw [if_neg (fun h => hd h.1)]
    simp [deviceScore, hc]

theorem deviceScore_pos_iff (vk : Vulkan) (device : VkPhysicalDevice) :
    0 < deviceScore vk device ↔ isDiscreteWithGraphics vk device := by
  rw [deviceScore_eq]; split <;> simp [*]

theorem deviceScore_le (vk : Vulkan) (device : VkPhysicalDevice) :
    deviceScore vk device ≤ 100 := by
  rw [deviceScore_eq]; split <;> simp

theorem deviceScore_of_discreteWithGraphics (vk : Vulkan) (device : VkPhysicalDevice)
    (h : isDiscreteWithGraphics vk device) : deviceScore vk device = 100 := by
  rw [deviceScore_eq, if_pos h]

theorem deviceScore_of_not_discreteWithGraphics (vk : Vulkan) (device : VkPhysicalDevice)
    (h : ¬ isDiscreteWithGraphics vk device) : deviceScore vk device = 0 := by
  rw [deviceScore_eq, if_neg h]

/-! ## The scan over the devices -/

theorem scanStep_of_le (vk : Vulkan) (st : ScanState) (device : VkPhysicalDevice)
    (h : deviceScore vk device ≤ st.currentBestScore) : scanStep vk st device = st := by
  unfold scanStep
  simp only []
  rw [if_neg (by omega)]

theorem scanStep_of_lt (vk : Vulkan) (st : ScanState) (device : VkPhysicalDevice)
    (h : st.currentBestScore < deviceScore vk device) :
    scanStep vk st device =
      ⟨⟨device, findQueueFamilyIndices vk device⟩, deviceScore vk device⟩ := by
  unfold scanStep
  simp only []
  rw [if_pos h]

theorem foldl_scanStep_of_best (vk : Vulkan) (devices : List VkPhysicalDevice) (st : ScanState)
    (h : st.currentBestScore = 100) : devices.foldl (scanStep vk) st = st := by
  induction devices with
  | nil => rfl
  | cons d rest ih =>
    rw [List.foldl_cons, scanStep_of_le vk st d (by rw [h]; exact deviceScore_le vk d), ih]

theorem foldl_scanStep_of_none (vk : Vulkan) (devices : List VkPhysicalDevice) (st : ScanState)
    (h : ∀ d ∈ devices, ¬ isDiscreteWithGraphics vk d) : devices.foldl (scanStep vk) st = st := by
  induction devices with
  | nil => rfl
  | cons d rest ih =>
    have hd : deviceScore vk d = 0 :=
      deviceScore_of_not_discreteWithGraphics vk d (h d (List.mem_cons_self _ _))
    rw [List.foldl_cons, scanStep_of_le vk st d (by omega),
      ih (fun x hx => h x (List.mem_cons_of_mem _ hx))]

theorem foldl_scanStep_of_first (vk : Vulkan) (pre post : List VkPhysicalDevice)
    (device : VkPhysicalDevice) (st : ScanState) (hst : st.currentBestScore = 0)
    (hpre : ∀ d ∈ pre, ¬ isDiscreteWithGraphics vk d)
    (hdev : isDiscreteWithGraphics vk device) :
    (pre ++ device :: post).foldl (scanStep vk) st =
      ⟨⟨device, findQueueFamilyIndices vk device⟩, 100⟩ := by
  have hscore := deviceScore_of_discreteWithGraphics vk device hdev
  rw [List.foldl_append, foldl_scanStep_of_none vk pre st hpre, List.foldl_cons,
    scanStep_of_lt vk st device (by omega), hscore]
  exact foldl_scanStep_of_best vk post _ rfl

theorem exists_first_discreteWithGraphics (vk : Vulkan) (devices : List VkPhysicalDevice)
    (h : ∃ d ∈ devices, isDiscreteWithGraphics vk d) :
    ∃ pre device post, devices = pre ++ device :: post ∧ isDiscreteWithGraphics vk device ∧
      ∀ d ∈ pre, ¬ isDiscreteWithGraphics vk d := by
  induction devices with
  | nil => simp at h
  | cons x rest ih =>
    by_cases hx : isDiscreteWithGraphics vk x
    · exact ⟨[], x, rest, rfl, hx, by simp⟩
    · obtain ⟨d, hd, hdg⟩ := h
      have hrest : ∃ d ∈ rest, isDiscreteWithGraphics vk d := by
        rcases List.mem_cons.mp hd with rfl | hmem
        · exact absurd hdg hx
        · exact ⟨d, hmem, hdg⟩
      obtain ⟨pre, device, post, heq, hdev, hpre⟩ := ih hrest
      refine ⟨x :: pre, device, post, by rw [heq]; rfl, hdev, ?_⟩
      intro y hy
      rcases List.mem_cons.mp hy with rfl | hmem
      · exact hx
      · exact hpre y hmem

/-- The scan either finds no discrete GPU with a graphics family and leaves the
reset object with score 0, or stops changing at the first such device with
score 100. -/
theorem scanDevices_cases (vk : Vulkan) (devices : List VkPhysicalDevice)
    (app : VulkanApplication) :
    ((∀ d ∈ devices, ¬ isDiscreteWithGraphics vk d) ∧
      scanDevices vk devices app = ⟨⟨vk.VK_NULL_HANDLE, app.queueFamilyIndices⟩, 0⟩) ∨
    (∃ pre device post, devices = pre ++ device :: post ∧ isDiscreteWithGraphics vk device ∧
      (∀ d ∈ pre, ¬ isDiscreteWithGraphics vk d) ∧
      scanDevices vk devices app = ⟨⟨device, findQueueFamilyIndices vk device⟩, 100⟩) := by
  by_cases h : ∃ d ∈ devices, isDiscreteWithGraphics vk d
  · right
    obtain ⟨pre, device, post, heq, hdev, hpre⟩ := exists_first_discreteWithGraphics vk devices h
    refine ⟨pre, device, post, heq, hdev, hpre, ?_⟩
    unfold scanDevices
    rw [heq]
    exact foldl_scanStep_of_first vk pre post device _ rfl hpre hdev
  · left
    push_neg at h
    refine ⟨h, ?_⟩
    unfold scanDevices
    exact foldl_scanStep_of_none vk devices _ h

theorem pickPhysicalDevice_of_first (vk : Vulkan) (pre post : List VkPhysicalDevice)
    (device : VkPhysicalDevice) (app : VulkanApplication)
    (hpre : ∀ d ∈ pre, ¬ isDiscreteWithGraphics vk d)
    (hdev : isDiscreteWithGraphics vk device) (hnonnull : device ≠ vk.VK_NULL_HANDLE) :
    pickPhysicalDevice vk (pre ++ device :: post) app =
      (Except.ok (), ⟨device, findQueueFamilyIndices vk device⟩) := by
  have hscan : scanDevices vk (pre ++ device :: post) app =
      ⟨⟨device, findQueueFamilyIndices vk device⟩, 100⟩ :=
    foldl_scanStep_of_first vk pre post device _ rfl hpre hdev
  unfold pickPhysicalDevice
  simp [hscan, hnonnull]

theorem pickPhysicalDevice_of_none (vk : Vulkan) (devices : List VkPhysicalDevice)
    (app : VulkanApplication) (hne : devices ≠ [])
    (hnone : ∀ d ∈ devices, ¬ isDiscreteWithGraphics vk d) :
    pickPhysicalDevice vk devices app =
      (Except.error "Failed to find suitable GPU",
        ⟨vk.VK_NULL_HANDLE, app.queueFamilyIndices⟩) := by
  have hscan : scanDevices vk devices app = ⟨⟨vk.VK_NULL_HANDLE, app.queueFamilyIndices⟩, 0⟩ :=
    foldl_scanStep_of_none vk devices _ hnone
  unfold pickPhysicalDevice
  simp [hscan, hne]

theorem pickPhysicalDevice_nil (vk : Vulkan) (app : VulkanApplication) :
    pickPhysicalDevice vk [] app = (Except.error "No GPUs with Vulkan support", app) := rfl

/-- The result of `pickPhysicalDevice` in the two cases of `scanDevices_cases`. -/
theorem pickPhysicalDevice_cases (vk : Vulkan) (devices : List VkPhysicalDevice)
    (app : VulkanApplication) :
    ((∀ d ∈ devices, ¬ isDiscreteWithGraphics vk d) ∧
      pickPhysicalDevice vk devices app =
        if devices = [] then (Except.error "No GPUs with Vulkan support", app)
        else (Except.error "Failed to find suitable GPU",
          ⟨vk.VK_NULL_HANDLE, app.queueFamilyIndices⟩)) ∨
    (∃ pre device post, devices = pre ++ device :: post ∧ isDiscreteWithGraphics vk device ∧
      (∀ d ∈ pre, ¬ isDiscreteWithGraphics vk d) ∧
      scanDevices vk devices app = ⟨⟨device, findQueueFamilyIndices vk device⟩, 100⟩ ∧
      pickPhysicalDevice vk devices app =
        if device = vk.VK_NULL_HANDLE then
          (Except.error "Failed to find suitable GPU",
            ⟨device, findQueueFamilyIndices vk device⟩)
        else (Except.ok (), ⟨device, findQueueFamilyIndices vk device⟩)) := by
  rcases scanDevices_cases vk devices app with ⟨hnone, _⟩ | ⟨pre, device, post, heq, hdev, hpre, hscan⟩
  · left
    refine ⟨hnone, ?_⟩
    by_cases hnil : devices = []
    · rw [if_pos hnil, hnil, pickPhysicalDevice_nil]
    · rw [if_neg hnil, pickPhysicalDevice_of_none vk devices app hnil hnone]
  · right
    refine ⟨pre, device, post, heq, hdev, hpre, hscan, ?_⟩
    have hne : devices ≠ [] := by rw [heq]; simp
    unfold pickPhysicalDevice
    by_cases hnull : device = vk.VK_NULL_HANDLE <;> simp [hscan, hne, hnull]

/-! ## The claims -/

/-- Claim C1: when the number of queue families fits a `uint32_t`,
`findQueueFamilyIndices` returns `graphicsFamily = i` exactly when family `i` has
the graphics bit and no family at a lower index has it, and returns an empty
`graphicsFamily` exactly when no family has the graphics bit. -/
theorem findQueueFamilyIndices_lowest_graphics_index (vk : Vulkan) (device : VkPhysicalDevice)
    (hcount : (vk.queueFamilies device).length < UINT32_SIZE) :
    (∀ i, (findQueueFamilyIndices vk device).graphicsFamily = some i ↔
      (∃ qf, (vk.queueFamilies device)[i]? = some qf ∧ hasGraphicsBit vk qf) ∧
        ∀ j, j < i → ∀ qf, (vk.queueFamilies device)[j]? = some qf → ¬ hasGraphicsBit vk qf) ∧
    ((findQueueFamilyIndices vk device).graphicsFamily = none ↔
      ∀ qf ∈ vk.queueFamilies device, ¬ hasGraphicsBit vk qf) := by
  exact ⟨findQueueFamilyIndices_eq_some_iff vk device hcount,
    findQueueFamilyIndices_eq_none_iff vk device⟩

/-- Claim C1 at device 4 of the example platform, whose families 1 and 2 both have
the graphics bit. -/
theorem findQueueFamilyIndices_lowest_graphics_index_witness :
    (exampleVulkan.queueFamilies 4).length < UINT32_SIZE ∧
    ((∀ i, (findQueueFamilyIndices exampleVulkan 4).graphicsFamily = some i ↔
      (∃ qf, (exampleVulkan.queueFamilies 4)[i]? = some qf ∧ hasGraphicsBit exampleVulkan qf) ∧
        ∀ j, j < i → ∀ qf, (exampleVulkan.queueFamilies 4)[j]? = some qf →
          ¬ hasGraphicsBit exampleVulkan qf) ∧
    ((findQueueFamilyIndices exampleVulkan 4).graphicsFamily = none ↔
      ∀ qf ∈ exampleVulkan.queueFamilies 4, ¬ hasGraphicsBit exampleVulkan qf)) :=
  ⟨by decide, findQueueFamilyIndices_lowest_graphics_index exampleVulkan 4 (by decide)⟩

/-- Claim C2, refuted on the example platform: device 3 is a discrete GPU without
a graphics family, device 2 an integrated GPU with one; the integrated GPU's
score is 0, not 1, and the call throws instead of selecting it. -/
theorem pickPhysicalDevice_integrated_not_selected :
    exampleVulkan.deviceType 3 = exampleVulkan.VK_PHYSICAL_DEVICE_TYPE_DISCRETE_GPU ∧
    ¬ hasGraphicsFamily exampleVulkan 3 ∧
    exampleVulkan.deviceType 2 ≠ exampleVulkan.VK_PHYSICAL_DEVICE_TYPE_DISCRETE_GPU ∧
    hasGraphicsFamily exampleVulkan 2 ∧
    deviceScore exampleVulkan 2 ≠ 1 ∧
    (pickPhysicalDevice exampleVulkan [3, 2] ⟨0, ⟨none⟩⟩).1 ≠ Except.ok () ∧
    (pickPhysicalDevice exampleVulkan [3, 2] ⟨0, ⟨none⟩⟩).2.physicalDevice ≠ 2 := by
  decide

/-- Claim C2 as amended: for a discrete GPU without a graphics family and a
non-discrete GPU with one, in either order, both scores are 0 and
`pickPhysicalDevice` throws "Failed to find suitable GPU", with `physicalDevice`
reset to the null handle and `queueFamilyIndices` untouched. -/
theorem pickPhysicalDevice_discrete_incomplete_integrated_complete (vk : Vulkan)
    (app : VulkanApplication) (discrete integrated : VkPhysicalDevice)
    (hdiscrete : vk.deviceType discrete = vk.VK_PHYSICAL_DEVICE_TYPE_DISCRETE_GPU)
    (hdiscreteFamilies : ¬ hasGraphicsFamily vk discrete)
    (hintegrated : vk.deviceType integrated ≠ vk.VK_PHYSICAL_DEVICE_TYPE_DISCRETE_GPU)
    (hintegratedFamilies : hasGraphicsFamily vk integrated) :
    (vk.deviceType discrete = vk.VK_PHYSICAL_DEVICE_TYPE_DISCRETE_GPU ∧
      deviceScore vk discrete = 0) ∧
    ((findQueueFamilyIndices vk integrated).isComplete = true ∧
      deviceScore vk integrated = 0) ∧
    pickPhysicalDevice vk [discrete, integrated] app =
      (Except.error "Failed to find suitable GPU", ⟨vk.VK_NULL_HANDLE, app.queueFamilyIndices⟩) ∧
    pickPhysicalDevice vk [integrated, discrete] app =
      (Except.error "Failed to find suitable GPU", ⟨vk.VK_NULL_HANDLE, app.queueFamilyIndices⟩) := by
  have h1 : ¬ isDiscreteWithGraphics vk discrete := fun h => hdiscreteFamilies h.2
  have h2 : ¬ isDiscreteWithGraphics vk integrated := fun h => hintegrated h.1
  refine ⟨⟨hdiscrete, deviceScore_of_not_discreteWithGraphics vk _ h1⟩,
    ⟨(findQueueFamilyIndices_isComplete_iff vk integrated).mpr hintegratedFamilies,
      deviceScore_of_not_discreteWithGraphics vk _ h2⟩, ?_, ?_⟩
  · apply pickPhysicalDevice_of_none vk _ app (by simp)
    intro d hd
    simp only [List.mem_cons, List.mem_singleton, List.not_mem_nil, or_false] at hd
    rcases hd with rfl | rfl <;> assumption
  · apply pickPhysicalDevice_of_none vk _ app (by simp)
    intro d hd
    simp only [List.mem_cons, List.mem_singleton, List.not_mem_nil, or_false] at hd
    rcases hd with rfl | rfl <;> assumption

/-- Claim C2 as amended, at devices 3 and 2 of the example platform. -/
theorem pickPhysicalDevice_discrete_incomplete_integrated_complete_witness :
    (exampleVulkan.deviceType 3 = exampleVulkan.VK_PHYSICAL_DEVICE_TYPE_DISCRETE_GPU ∧
      ¬ hasGraphicsFamily exampleVulkan 3 ∧
      exampleVulkan.deviceType 2 ≠ exampleVulkan.VK_PHYSICAL_DEVICE_TYPE_DISCRETE_GPU ∧
      hasGraphicsFamily exampleVulkan 2) ∧
    ((exampleVulkan.deviceType 3 = exampleVulkan.VK_PHYSICAL_DEVICE_TYPE_DISCRETE_GPU ∧
      deviceScore exampleVulkan 3 = 0) ∧
    ((findQueueFamilyIndices exampleVulkan 2).isComplete = true ∧
      deviceScore exampleVulkan 2 = 0) ∧
    pickPhysicalDevice exampleVulkan [3, 2] ⟨7, ⟨some 5⟩⟩ =
      (Except.error "Failed to find suitable GPU",
        ⟨exampleVulkan.VK_NULL_HANDLE, ⟨some 5⟩⟩) ∧
    pickPhysicalDevice exampleVulkan [2, 3] ⟨7, ⟨some 5⟩⟩ =
      (Except.error "Failed to find suitable GPU",
        ⟨exampleVulkan.VK_NULL_HANDLE, ⟨some 5⟩⟩)) :=
  ⟨by decide,
    pickPhysicalDevice_discrete_incomplete_integrated_complete exampleVulkan ⟨7, ⟨some 5⟩⟩ 3 2
      (by decide) (by decide) (by decide) (by decide)⟩

/-- Claim C3, refuted on the example platform: the exception thrown for the empty
device list differs from the one thrown for the list holding only device 3, whose
score is 0. -/
theorem pickPhysicalDevice_empty_error_differs :
    (∀ d ∈ [3], deviceScore exampleVulkan d = 0) ∧
    (pickPhysicalDevice exampleVulkan [] ⟨0, ⟨none⟩⟩).1 ≠
      (pickPhysicalDevice exampleVulkan [3] ⟨0, ⟨none⟩⟩).1 := by
  decide

/-- Claim C3 as amended: the empty device list makes `pickPhysicalDevice` throw
"No GPUs with Vulkan support", a non-empty list of devices that all score 0 makes
it throw "Failed to find suitable GPU", and the two exceptions differ. -/
theorem pickPhysicalDevice_empty_vs_unsuitable (vk : Vulkan) (app : VulkanApplication)
    (devices : List VkPhysicalDevice) (hne : devices ≠ [])
    (hunsuitable : ∀ d ∈ devices, deviceScore vk d = 0) :
    (pickPhysicalDevice vk [] app).1 = Except.error "No GPUs with Vulkan support" ∧
    (pickPhysicalDevice vk devices app).1 = Except.error "Failed to find suitable GPU" ∧
    (pickPhysicalDevice vk [] app).1 ≠ (pickPhysicalDevice vk devices app).1 := by
  have hnone : ∀ d ∈ devices, ¬ isDiscreteWithGraphics vk d := by
    intro d hd hdg
    have := hunsuitable d hd
    rw [deviceScore_of_discreteWithGraphics vk d hdg] at this
    exact absurd this (by decide)
  rw [pickPhysicalDevice_of_none vk devices app hne hnone, pickPhysicalDevice_nil]
  exact ⟨rfl, rfl, by simp⟩

/-- Claim C3 as amended, at the list of devices 3 and 2 of the example platform. -/
theorem pickPhysicalDevice_empty_vs_unsuitable_witness :
    (([3, 2] : List VkPhysicalDevice) ≠ [] ∧ ∀ d ∈ [3, 2], deviceScore exampleVulkan d = 0) ∧
    ((pickPhysicalDevice exampleVulkan [] ⟨7, ⟨some 5⟩⟩).1 =
      Except.error "No GPUs with Vulkan support" ∧
    (pickPhysicalDevice exampleVulkan [3, 2] ⟨7, ⟨some 5⟩⟩).1 =
      Except.error "Failed to find suitable GPU" ∧
    (pickPhysicalDevice exampleVulkan [] ⟨7, ⟨some 5⟩⟩).1 ≠
      (pickPhysicalDevice exampleVulkan [3, 2] ⟨7, ⟨some 5⟩⟩).1) :=
  ⟨by decide,
    pickPhysicalDevice_empty_vs_unsuitable exampleVulkan ⟨7, ⟨some 5⟩⟩ [3, 2] (by decide)
      (by decide)⟩

/-- Claim C6, refuted: in the empty device list no device has a graphics family,
yet the exception thrown is not "Failed to find suitable GPU". -/
theorem pickPhysicalDevice_no_graphics_empty_list :
    (∀ d ∈ ([] : List VkPhysicalDevice), ¬ hasGraphicsFamily exampleVulkan d) ∧
    (pickPhysicalDevice exampleVulkan [] ⟨0, ⟨none⟩⟩).1 ≠
      Except.error "Failed to find suitable GPU" := by
  decide

/-- Claim C6 as amended: a device list in which no device has a graphics family
makes `pickPhysicalDevice` throw, however many devices are discrete GPUs:
"Failed to find suitable GPU" when the list is non-empty, "No GPUs with Vulkan
support" when it is empty. -/
theorem pickPhysicalDevice_no_graphics_fails (vk : Vulkan) (devices : List VkPhysicalDevice)
    (app : VulkanApplication) (hnone : ∀ d ∈ devices, ¬ hasGraphicsFamily vk d) :
    (devices ≠ [] →
      (pickPhysicalDevice vk devices app).1 = Except.error "Failed to find suitable GPU") ∧
    (devices = [] →
      (pickPhysicalDevice vk devices app).1 = Except.error "No GPUs with Vulkan support") := by
  constructor
  · intro hne
    rw [pickPhysicalDevice_of_none vk devices app hne (fun d hd h => hnone d hd h.2)]
  · intro hnil
    rw [hnil, pickPhysicalDevice_nil]

/-- Claim C6 as amended, at the list of devices 3, 5 and 3 of the example platform
(device 3 is a discrete GPU). -/
theorem pickPhysicalDevice_no_graphics_fails_witness :
    (∀ d ∈ [3, 5, 3], ¬ hasGraphicsFamily exampleVulkan d) ∧
    ((([3, 5, 3] : List VkPhysicalDevice) ≠ [] →
      (pickPhysicalDevice exampleVulkan [3, 5, 3] ⟨7, ⟨some 5⟩⟩).1 =
        Except.error "Failed to find suitable GPU") ∧
    (([3, 5, 3] : List VkPhysicalDevice) = [] →
      (pickPhysicalDevice exampleVulkan [3, 5, 3] ⟨7, ⟨some 5⟩⟩).1 =
        Except.error "No GPUs with Vulkan support")) :=
  ⟨by decide, pickPhysicalDevice_no_graphics_fails exampleVulkan [3, 5, 3] ⟨7, ⟨some 5⟩⟩ (by decide)⟩

/-- Claim C4: in a device list with two discrete GPUs that both have a graphics
family, where `first` is the earlier one and no such device precedes it,
`pickPhysicalDevice` returns normally with `first` in `physicalDevice` and
`first`'s own queue family indices; a device whose score is not strictly greater
than the running best leaves the running best unchanged, `first` has the maximal
score of the list, `second` ties with it, and every device before `first` scores
strictly less. -/
theorem pickPhysicalDevice_first_of_two_discrete (vk : Vulkan) (app : VulkanApplication)
    (pre mid post : List VkPhysicalDevice) (first second : VkPhysicalDevice)
    (hfirst : isDiscreteWithGraphics vk first) (hsecond : isDiscreteWithGraphics vk second)
    (hpre : ∀ d ∈ pre, ¬ isDiscreteWithGraphics vk d)
    (hnonnull : first ≠ vk.VK_NULL_HANDLE) :
    pickPhysicalDevice vk (pre ++ first :: (mid ++ second :: post)) app =
      (Except.ok (), ⟨first, findQueueFamilyIndices vk first⟩) ∧
    (∀ st d, deviceScore vk d ≤ st.currentBestScore → scanStep vk st d = st) ∧
    (∀ d ∈ pre ++ first :: (mid ++ second :: post), deviceScore vk d ≤ deviceScore vk first) ∧
    deviceScore vk second = deviceScore vk first ∧
    (∀ d ∈ pre, deviceScore vk d < deviceScore vk first) := by
  have hscore := deviceScore_of_discreteWithGraphics vk first hfirst
  refine ⟨pickPhysicalDevice_of_first vk pre _ first app hpre hfirst hnonnull,
    fun st d h => scanStep_of_le vk st d h, ?_, ?_, ?_⟩
  · intro d _
    rw [hscore]; exact deviceScore_le vk d
  · rw [hscore, deviceScore_of_discreteWithGraphics vk second hsecond]
  · intro d hd
    rw [hscore, deviceScore_of_not_discreteWithGraphics vk d (hpre d hd)]
    decide

/-- Claim C4 on the example platform: in the list 2, 4, 3, 1, 5 the discrete GPUs
with a graphics family are 4 and 1, and 4 comes first. -/
theorem pickPhysicalDevice_first_of_two_discrete_witness :
    (isDiscreteWithGraphics exampleVulkan 4 ∧ isDiscreteWithGraphics exampleVulkan 1 ∧
      (∀ d ∈ [2], ¬ isDiscreteWithGraphics exampleVulkan d) ∧
      (4 : VkPhysicalDevice) ≠ exampleVulkan.VK_NULL_HANDLE) ∧
    (pickPhysicalDevice exampleVulkan ([2] ++ 4 :: ([3] ++ 1 :: [5])) ⟨7, ⟨some 5⟩⟩ =
      (Except.ok (), ⟨4, findQueueFamilyIndices exampleVulkan 4⟩) ∧
    (∀ st d, deviceScore exampleVulkan d ≤ st.currentBestScore →
      scanStep exampleVulkan st d = st) ∧
    (∀ d ∈ [2] ++ 4 :: ([3] ++ 1 :: [5]),
      deviceScore exampleVulkan d ≤ deviceScore exampleVulkan 4) ∧
    deviceScore exampleVulkan 1 = deviceScore exampleVulkan 4 ∧
    (∀ d ∈ [2], deviceScore exampleVulkan d < deviceScore exampleVulkan 4)) :=
  ⟨by decide,
    pickPhysicalDevice_first_of_two_discrete exampleVulkan ⟨7, ⟨some 5⟩⟩ [2] [3] [5] 4 1
      (by decide) (by decide) (by decide) (by decide)⟩

/-- Claim C5: in a device list whose only discrete GPU is `gpu`, where `gpu`'s
queue families 0 and 1 lack the graphics bit and family 2 has it,
`pickPhysicalDevice` returns normally with `gpu` in `physicalDevice` and
`graphicsFamily = 2` in `queueFamilyIndices`, and the scan ends with best score
100, whatever the other devices and their positions. -/
theorem pickPhysicalDevice_single_discrete_family_two (vk : Vulkan) (app : VulkanApplication)
    (pre post : List VkPhysicalDevice) (gpu : VkPhysicalDevice)
    (q0 q1 q2 : VkQueueFamilyProperties) (rest : List VkQueueFamilyProperties)
    (hdiscrete : vk.deviceType gpu = vk.VK_PHYSICAL_DEVICE_TYPE_DISCRETE_GPU)
    (hfamilies : vk.queueFamilies gpu = q0 :: q1 :: q2 :: rest)
    (h0 : ¬ hasGraphicsBit vk q0) (h1 : ¬ hasGraphicsBit vk q1) (h2 : hasGraphicsBit vk q2)
    (hothers : ∀ d ∈ pre ++ post, vk.deviceType d ≠ vk.VK_PHYSICAL_DEVICE_TYPE_DISCRETE_GPU)
    (hnonnull : gpu ≠ vk.VK_NULL_HANDLE) :
    pickPhysicalDevice vk (pre ++ gpu :: post) app = (Except.ok (), ⟨gpu, ⟨some 2⟩⟩) ∧
    (scanDevices vk (pre ++ gpu :: post) app).currentBestScore = 100 := by
  have hfind : findQueueFamilyIndices vk gpu = ⟨some 2⟩ := by
    unfold hasGraphicsBit at h0 h1 h2
    have hc : (QueueFamilyIndices.mk (some 2)).isComplete = true := rfl
    simp only [ne_eq, not_not] at h0 h1
    simp [findQueueFamilyIndices, hfamilies, findQueueFamilyIndicesLoop,
      QueueFamilyIndices.isComplete, h0, h1, h2, UINT32_SIZE]
    exact findQueueFamilyIndicesLoop_of_isComplete _ _ _ _ hc
  have hgpu : isDiscreteWithGraphics vk gpu :=
    ⟨hdiscrete, q2, by rw [hfamilies]; simp, h2⟩
  have hpre : ∀ d ∈ pre, ¬ isDiscreteWithGraphics vk d :=
    fun d hd h => hothers d (List.mem_append_left _ hd) h.1
  have hpick := pickPhysicalDevice_of_first vk pre post gpu app hpre hgpu hnonnull
  rw [hfind] at hpick
  refine ⟨hpick, ?_⟩
  have hscan : scanDevices vk (pre ++ gpu :: post) app =
      ⟨⟨gpu, findQueueFamilyIndices vk gpu⟩, 100⟩ :=
    foldl_scanStep_of_first vk pre post gpu _ rfl hpre hgpu
  rw [hscan]

/-- Claim C5 on the example platform: device 1 is a discrete GPU with families
compute, transfer, graphics+compute, between the integrated GPUs 2 and 5. -/
theorem pickPhysicalDevice_single_discrete_family_two_witness :
    (exampleVulkan.deviceType 1 = exampleVulkan.VK_PHYSICAL_DEVICE_TYPE_DISCRETE_GPU ∧
      exampleVulkan.queueFamilies 1 = ⟨2⟩ :: ⟨4⟩ :: ⟨3⟩ :: [] ∧
      ¬ hasGraphicsBit exampleVulkan ⟨2⟩ ∧ ¬ hasGraphicsBit exampleVulkan ⟨4⟩ ∧
      hasGraphicsBit exampleVulkan ⟨3⟩ ∧
      (∀ d ∈ [2] ++ [5],
        exampleVulkan.deviceType d ≠ exampleVulkan.VK_PHYSICAL_DEVICE_TYPE_DISCRETE_GPU) ∧
      (1 : VkPhysicalDevice) ≠ exampleVulkan.VK_NULL_HANDLE) ∧
    (pickPhysicalDevice exampleVulkan ([2] ++ 1 :: [5]) ⟨7, ⟨some 5⟩⟩ =
      (Except.ok (), ⟨1, ⟨some 2⟩⟩) ∧
    (scanDevices exampleVulkan ([2] ++ 1 :: [5]) ⟨7, ⟨some 5⟩⟩).currentBestScore = 100) :=
  ⟨by decide,
    pickPhysicalDevice_single_discrete_family_two exampleVulkan ⟨7, ⟨some 5⟩⟩ [2] [5] 1
      ⟨2⟩ ⟨4⟩ ⟨3⟩ [] (by decide) (by decide) (by decide) (by decide) (by decide) (by decide)
      (by decide)⟩

/-- Claim C7: a device whose `findQueueFamilyIndices` result is absent has score 0
whatever its device type; and whenever `pickPhysicalDevice` returns normally, the
selected device is one of the list, `findQueueFamilyIndices` on it is complete,
the stored `queueFamilyIndices` is exactly that result, and no device with an
absent result is the selected one. -/
theorem pickPhysicalDevice_selects_complete (vk : Vulkan) (devices : List VkPhysicalDevice)
    (app : VulkanApplication) :
    (∀ d, (findQueueFamilyIndices vk d).isComplete = false → deviceScore vk d = 0) ∧
    ((pickPhysicalDevice vk devices app).1 = Except.ok () →
      (pickPhysicalDevice vk devices app).2.physicalDevice ∈ devices ∧
      (findQueueFamilyIndices vk
        (pickPhysicalDevice vk devices app).2.physicalDevice).isComplete = true ∧
      (pickPhysicalDevice vk devices app).2.queueFamilyIndices =
        findQueueFamilyIndices vk (pickPhysicalDevice vk devices app).2.physicalDevice ∧
      ∀ d, (findQueueFamilyIndices vk d).isComplete = false →
        (pickPhysicalDevice vk devices app).2.physicalDevice ≠ d) := by
  constructor
  · intro d hd
    apply deviceScore_of_not_discreteWithGraphics
    intro h
    rw [(findQueueFamilyIndices_isComplete_iff vk d).mpr h.2] at hd
    exact Bool.noConfusion hd
  · intro hok
    rcases pickPhysicalDevice_cases vk devices app with
      ⟨_, hpick⟩ | ⟨pre, device, post, heq, hdev, _, _, hpick⟩
    · rw [hpick] at hok
      split at hok <;> simp at hok
    · rw [hpick] at hok ⊢
      by_cases hnull : device = vk.VK_NULL_HANDLE
      · rw [if_pos hnull] at hok
        simp at hok
      · rw [if_neg hnull]
        have hcomplete := (findQueueFamilyIndices_isComplete_iff vk device).mpr hdev.2
        refine ⟨by rw [heq]; simp, hcomplete, rfl, ?_⟩
        intro d hd hsel
        have hsel : device = d := hsel
        rw [← hsel, hcomplete] at hd
        exact Bool.noConfusion hd

/-- Claim C7 on the example platform, at the list 2, 3, 1, 4, on which the call
returns normally. -/
theorem pickPhysicalDevice_selects_complete_witness :
    (pickPhysicalDevice exampleVulkan [2, 3, 1, 4] ⟨7, ⟨some 5⟩⟩).1 = Except.ok () ∧
    (pickPhysicalDevice exampleVulkan [2, 3, 1, 4] ⟨7, ⟨some 5⟩⟩).2.physicalDevice
      ∈ [2, 3, 1, 4] ∧
    (findQueueFamilyIndices exampleVulkan
      (pickPhysicalDevice exampleVulkan [2, 3, 1, 4] ⟨7, ⟨some 5⟩⟩).2.physicalDevice).isComplete
        = true ∧
    (pickPhysicalDevice exampleVulkan [2, 3, 1, 4] ⟨7, ⟨some 5⟩⟩).2.queueFamilyIndices =
      findQueueFamilyIndices exampleVulkan
        (pickPhysicalDevice exampleVulkan [2, 3, 1, 4] ⟨7, ⟨some 5⟩⟩).2.physicalDevice ∧
    ∀ d, (findQueueFamilyIndices exampleVulkan d).isComplete = false →
      (pickPhysicalDevice exampleVulkan [2, 3, 1, 4] ⟨7, ⟨some 5⟩⟩).2.physicalDevice ≠ d :=
  ⟨by decide,
    (pickPhysicalDevice_selects_complete exampleVulkan [2, 3, 1, 4] ⟨7, ⟨some 5⟩⟩).2
      (by decide)⟩

/-- Claim C8, refuted on the example platform: on the empty device list the call
throws, and `physicalDevice` still holds its earlier value 7, not the null
handle. -/
theorem pickPhysicalDevice_empty_keeps_physicalDevice :
    (pickPhysicalDevice exampleVulkan [] ⟨7, ⟨some 5⟩⟩).1 ≠ Except.ok () ∧
    (pickPhysicalDevice exampleVulkan [] ⟨7, ⟨some 5⟩⟩).2.physicalDevice ≠
      exampleVulkan.VK_NULL_HANDLE := by
  decide

/-- Claim C8 as amended: when the enumerated handles are valid (non-null) and
`pickPhysicalDevice` throws, `queueFamilyIndices` equals its value before the
call; `physicalDevice` is the null handle when the list was non-empty, and keeps
its value from before the call when the list was empty. -/
theorem pickPhysicalDevice_failure_state (vk : Vulkan) (devices : List VkPhysicalDevice)
    (app : VulkanApplication) (hvalid : ∀ d ∈ devices, d ≠ vk.VK_NULL_HANDLE)
    (hfail : (pickPhysicalDevice vk devices app).1 ≠ Except.ok ()) :
    (pickPhysicalDevice vk devices app).2.queueFamilyIndices = app.queueFamilyIndices ∧
    (devices ≠ [] →
      (pickPhysicalDevice vk devices app).2.physicalDevice = vk.VK_NULL_HANDLE) ∧
    (devices = [] →
      (pickPhysicalDevice vk devices app).2.physicalDevice = app.physicalDevice) := by
  rcases pickPhysicalDevice_cases vk devices app with
    ⟨_, hpick⟩ | ⟨pre, device, post, heq, _, _, _, hpick⟩
  · rw [hpick]
    by_cases hnil : devices = []
    · rw [if_pos hnil]
      exact ⟨rfl, fun h => absurd hnil h, fun _ => rfl⟩
    · rw [if_neg hnil]
      exact ⟨rfl, fun _ => rfl, fun h => absurd h hnil⟩
  · have hnull : device ≠ vk.VK_NULL_HANDLE := hvalid device (by rw [heq]; simp)
    rw [hpick, if_neg hnull] at hfail
    exact absurd rfl hfail

/-- Claim C8 as amended, on the example platform at the list 3, 2. -/
theorem pickPhysicalDevice_failure_state_witness :
    ((∀ d ∈ [3, 2], d ≠ exampleVulkan.VK_NULL_HANDLE) ∧
      (pickPhysicalDevice exampleVulkan [3, 2] ⟨7, ⟨some 5⟩⟩).1 ≠ Except.ok ()) ∧
    ((pickPhysicalDevice exampleVulkan [3, 2] ⟨7, ⟨some 5⟩⟩).2.queueFamilyIndices =
      (VulkanApplication.mk 7 ⟨some 5⟩).queueFamilyIndices ∧
    (([3, 2] : List VkPhysicalDevice) ≠ [] →
      (pickPhysicalDevice exampleVulkan [3, 2] ⟨7, ⟨some 5⟩⟩).2.physicalDevice =
        exampleVulkan.VK_NULL_HANDLE) ∧
    (([3, 2] : List VkPhysicalDevice) = [] →
      (pickPhysicalDevice exampleVulkan [3, 2] ⟨7, ⟨some 5⟩⟩).2.physicalDevice =
        (VulkanApplication.mk 7 ⟨some 5⟩).physicalDevice)) :=
  ⟨by decide,
    pickPhysicalDevice_failure_state exampleVulkan [3, 2] ⟨7, ⟨some 5⟩⟩ (by decide) (by decide)⟩

/-- Claim C9: the outcome of `pickPhysicalDevice` (the exception thrown, or the
selected device with its queue family indices) is the same for any two earlier
states of the object, and a second run on the state left by the first run gives
the outcome of the first run. -/
theorem pickPhysicalDevice_outcome_independent (vk : Vulkan) (devices : List VkPhysicalDevice)
    (app1 app2 : VulkanApplication) :
    outcome (pickPhysicalDevice vk devices app1) = outcome (pickPhysicalDevice vk devices app2) ∧
    outcome (pickPhysicalDevice vk devices (pickPhysicalDevice vk devices app1).2) =
      outcome (pickPhysicalDevice vk devices app1) := by
  have key : ∀ a b : VulkanApplication,
      outcome (pickPhysicalDevice vk devices a) = outcome (pickPhysicalDevice vk devices b) := by
    intro a b
    rcases pickPhysicalDevice_cases vk devices a with
      ⟨hnone, hpa⟩ | ⟨pre, device, post, heq, hdev, hpre, _, hpa⟩
    · rcases pickPhysicalDevice_cases vk devices b with
        ⟨_, hpb⟩ | ⟨pre, device, post, heq, hdev, _, _, _⟩
      · rw [hpa, hpb]
        by_cases hnil : devices = []
        · rw [if_pos hnil, if_pos hnil]; rfl
        · rw [if_neg hnil, if_neg hnil]; rfl
      · exact absurd hdev (hnone device (by rw [heq]; simp))
    · have hpb : pickPhysicalDevice vk devices b =
          if device = vk.VK_NULL_HANDLE then
            (Except.error "Failed to find suitable GPU",
              ⟨device, findQueueFamilyIndices vk device⟩)
          else (Except.ok (), ⟨device, findQueueFamilyIndices vk device⟩) := by
        have hscan : scanDevices vk devices b =
            ⟨⟨device, findQueueFamilyIndices vk device⟩, 100⟩ := by
          rw [heq]; exact foldl_scanStep_of_first vk pre post device _ rfl hpre hdev
        have hne : devices ≠ [] := by rw [heq]; simp
        unfold pickPhysicalDevice
        by_cases hnull : device = vk.VK_NULL_HANDLE <;> simp [hscan, hne, hnull]
      rw [hpa, hpb]
  exact ⟨key app1 app2, key _ app1⟩

/-- Claim C10: when the enumerated handles are valid (non-null) and every
device's queue family count fits a `uint32_t`, `pickPhysicalDevice` returns
normally exactly when some device of the list is a discrete GPU with a graphics
family (on the empty list neither holds); and when it returns normally, the
selected device is the first such device of the list, the scan ends with best
score 100, and the stored `graphicsFamily` is an index below the device's number
of queue families at which the family's flags include the graphics bit. -/
theorem pickPhysicalDevice_succeeds_iff (vk : Vulkan) (devices : List VkPhysicalDevice)
    (app : VulkanApplication) (hvalid : ∀ d ∈ devices, d ≠ vk.VK_NULL_HANDLE)
    (hcount : ∀ d ∈ devices, (vk.queueFamilies d).length < UINT32_SIZE) :
    ((pickPhysicalDevice vk devices app).1 = Except.ok () ↔
      ∃ d ∈ devices, isDiscreteWithGraphics vk d) ∧
    ((pickPhysicalDevice vk devices app).1 = Except.ok () →
      (∃ pre post,
        devices = pre ++ (pickPhysicalDevice vk devices app).2.physicalDevice :: post ∧
        isDiscreteWithGraphics vk (pickPhysicalDevice vk devices app).2.physicalDevice ∧
        ∀ d ∈ pre, ¬ isDiscreteWithGraphics vk d) ∧
      (scanDevices vk devices app).currentBestScore = 100 ∧
      ∃ i qf, (pickPhysicalDevice vk devices app).2.queueFamilyIndices.graphicsFamily = some i ∧
        i < (vk.queueFamilies (pickPhysicalDevice vk devices app).2.physicalDevice).length ∧
        (vk.queueFamilies (pickPhysicalDevice vk devices app).2.physicalDevice)[i]? = some qf ∧
        hasGraphicsBit vk qf) := by
  rcases pickPhysicalDevice_cases vk devices app with
    ⟨hnone, hpick⟩ | ⟨pre, device, post, heq, hdev, hpre, hscan, hpick⟩
  · have hfail : (pickPhysicalDevice vk devices app).1 ≠ Except.ok () := by
      rw [hpick]; split <;> simp
    refine ⟨⟨fun h => absurd h hfail, ?_⟩, fun h => absurd h hfail⟩
    rintro ⟨d, hd, hdg⟩
    exact absurd hdg (hnone d hd)
  · have hmem : device ∈ devices := by rw [heq]; simp
    rw [if_neg (hvalid device hmem)] at hpick
    rw [hpick, hscan]
    refine ⟨⟨fun _ => ⟨device, hmem, hdev⟩, fun _ => rfl⟩, fun _ => ⟨⟨pre, post, heq, hdev, hpre⟩,
      rfl, ?_⟩⟩
    have hcomplete := (findQueueFamilyIndices_isComplete_iff vk device).mpr hdev.2
    obtain ⟨i, hi⟩ := Option.isSome_iff_exists.mp hcomplete
    obtain ⟨⟨qf, hqf, hg⟩, _⟩ :=
      (findQueueFamilyIndices_eq_some_iff vk device (hcount device hmem) i).mp hi
    have hlt : i < (vk.queueFamilies device).length := by
      by_contra hge
      rw [List.getElem?_eq_none (by omega)] at hqf
      exact Option.noConfusion hqf
    exact ⟨i, qf, hi, hlt, hqf, hg⟩

/-- Claim C10 on the example platform, at the list 2, 3, 1, 4. -/
theorem pickPhysicalDevice_succeeds_iff_witness :
    ((∀ d ∈ [2, 3, 1, 4], d ≠ exampleVulkan.VK_NULL_HANDLE) ∧
      (∀ d ∈ [2, 3, 1, 4], (exampleVulkan.queueFamilies d).length < UINT32_SIZE)) ∧
    (((pickPhysicalDevice exampleVulkan [2, 3, 1, 4] ⟨7, ⟨some 5⟩⟩).1 = Except.ok () ↔
      ∃ d ∈ [2, 3, 1, 4], isDiscreteWithGraphics exampleVulkan d) ∧
    ((pickPhysicalDevice exampleVulkan [2, 3, 1, 4] ⟨7, ⟨some 5⟩⟩).1 = Except.ok () →
      (∃ pre post,
        [2, 3, 1, 4] = pre ++
          (pickPhysicalDevice exampleVulkan [2, 3, 1, 4] ⟨7, ⟨some 5⟩⟩).2.physicalDevice :: post ∧
        isDiscreteWithGraphics exampleVulkan
          (pickPhysicalDevice exampleVulkan [2, 3, 1, 4] ⟨7, ⟨some 5⟩⟩).2.physicalDevice ∧
        ∀ d ∈ pre, ¬ isDiscreteWithGraphics exampleVulkan d) ∧
      (scanDevices exampleVulkan [2, 3, 1, 4] ⟨7, ⟨some 5⟩⟩).currentBestScore = 100 ∧
      ∃ i qf,
        (pickPhysicalDevice exampleVulkan [2, 3, 1, 4]
          ⟨7, ⟨some 5⟩⟩).2.queueFamilyIndices.graphicsFamily = some i ∧
        i < (exampleVulkan.queueFamilies
          (pickPhysicalDevice exampleVulkan [2, 3, 1, 4] ⟨7, ⟨some 5⟩⟩).2.physicalDevice).length ∧
        (exampleVulkan.queueFamilies
          (pickPhysicalDevice exampleVulkan [2, 3, 1, 4]
            ⟨7, ⟨some 5⟩⟩).2.physicalDevice)[i]? = some qf ∧
        hasGraphicsBit exampleVulkan qf)) :=
  ⟨by decide,
    pickPhysicalDevice_succeeds_iff exampleVulkan [2, 3, 1, 4] ⟨7, ⟨some 5⟩⟩ (by decide)
      (by decide)⟩

end VulkanTriangle
